import Mathlib

/-!
Verification development for the sharper image-ingestion middleware
(src/index.js).  The pipeline is embedded shallowly: configuration values
that in JavaScript may be booleans, numbers, strings or small records are
modelled by the inductive type `JVal`; the sharp query object is modelled
as a pure accumulating list of operations (the image-codec library is an
external collaborator, specified only at its interface boundary); the
async.waterfall of the middleware is modelled as a sequential run that
returns an event trace together with an `Except` outcome.  External
utilities (dateformat, randomstring, mime-types, multer io) are supplied
by an environment record `Env`.
-/

namespace Sharper

/-- JavaScript-style configuration values, covering the shapes the sharper
configuration actually uses: booleans, (integer) numbers, strings, an rgba
color record, a rectangle record, and undefined.  Numeric values are
modelled as integers. -/
inductive JVal where
  | bool (b : Bool)
  | num (n : Int)
  | str (s : String)
  | rgba (r g b a : Int)
  | rect (left top width height : Int)
  | undef
deriving DecidableEq

/-- One entry of the sizes list: output name suffix and target dimensions. -/
structure Size where
  suffix : String
  width : Int
  height : Int
deriving DecidableEq

/-- The resolved sharper configuration: identity and storage fields plus the
transform toggles, exactly the fields of defaultOptions in src/index.js. -/
structure Options where
  field : String
  location : String
  dirFormat : String
  fileNameLen : Nat
  maxFileSize : String
  accept : List String
  output : String
  sizes : List Size
  resize : JVal
  crop : JVal
  background : JVal
  embed : JVal
  max : JVal
  min : JVal
  withoutEnlargement : JVal
  ignoreAspectRatio : JVal
  extract : JVal
  trim : JVal
  flatten : JVal
  extend : JVal
  negate : JVal
  rotate : JVal
  flip : JVal
  flop : JVal
  blur : JVal
  sharpen : JVal
  gamma : JVal
  grayscale : JVal
  greyscale : JVal
  normalize : JVal
  normalise : JVal
  progressive : JVal
  quality : JVal

/-- The defaultOptions object of src/index.js, lines 56-137. -/
def defaultOptions : Options where
  field := "file"
  location := "/var/www/uploads/"
  dirFormat := "yyyy/mmm/d"
  fileNameLen := 50
  maxFileSize := "10mb"
  accept := ["png", "jpeg", "jpg"]
  output := "jpg"
  sizes := [{ suffix := "lg", width := 500, height := 500 }]
  resize := JVal.bool true
  crop := JVal.bool false
  background := JVal.rgba 200 200 200 1
  embed := JVal.bool false
  max := JVal.bool false
  min := JVal.bool false
  withoutEnlargement := JVal.bool false
  ignoreAspectRatio := JVal.bool false
  extract := JVal.bool false
  trim := JVal.bool false
  flatten := JVal.bool false
  extend := JVal.bool false
  negate := JVal.bool false
  rotate := JVal.bool false
  flip := JVal.bool false
  flop := JVal.bool false
  blur := JVal.bool false
  sharpen := JVal.bool false
  gamma := JVal.bool false
  grayscale := JVal.bool false
  greyscale := JVal.bool false
  normalize := JVal.bool false
  normalise := JVal.bool false
  progressive := JVal.bool false
  quality := JVal.bool false

/-- A caller-supplied options object: every top-level key may be present
(with a value) or absent. -/
structure Overrides where
  field : Option String := none
  location : Option String := none
  dirFormat : Option String := none
  fileNameLen : Option Nat := none
  maxFileSize : Option String := none
  accept : Option (List String) := none
  output : Option String := none
  sizes : Option (List Size) := none
  resize : Option JVal := none
  crop : Option JVal := none
  background : Option JVal := none
  embed : Option JVal := none
  max : Option JVal := none
  min : Option JVal := none
  withoutEnlargement : Option JVal := none
  ignoreAspectRatio : Option JVal := none
  extract : Option JVal := none
  trim : Option JVal := none
  flatten : Option JVal := none
  extend : Option JVal := none
  negate : Option JVal := none
  rotate : Option JVal := none
  flip : Option JVal := none
  flop : Option JVal := none
  blur : Option JVal := none
  sharpen : Option JVal := none
  gamma : Option JVal := none
  grayscale : Option JVal := none
  greyscale : Option JVal := none
  normalize : Option JVal := none
  normalise : Option JVal := none
  progressive : Option JVal := none
  quality : Option JVal := none

/-- An absent key falls back to its default value (helper for the lodash
assign semantics; noinline keeps code generation linear in the number of
configuration keys). -/
@[noinline] def orDefault {α : Type} (x : Option α) (d : α) : α := x.getD d

/-- Configuration resolution, src/index.js line 143:
options = lodash assign of the caller options over defaultOptions.
Every key present in the caller object wins; absent keys keep the default. -/
def resolveOptions (ov : Overrides) : Options where
  field := orDefault ov.field defaultOptions.field
  location := orDefault ov.location defaultOptions.location
  dirFormat := orDefault ov.dirFormat defaultOptions.dirFormat
  fileNameLen := orDefault ov.fileNameLen defaultOptions.fileNameLen
  maxFileSize := orDefault ov.maxFileSize defaultOptions.maxFileSize
  accept := orDefault ov.accept defaultOptions.accept
  output := orDefault ov.output defaultOptions.output
  sizes := orDefault ov.sizes defaultOptions.sizes
  resize := orDefault ov.resize defaultOptions.resize
  crop := orDefault ov.crop defaultOptions.crop
  background := orDefault ov.background defaultOptions.background
  embed := orDefault ov.embed defaultOptions.embed
  max := orDefault ov.max defaultOptions.max
  min := orDefault ov.min defaultOptions.min
  withoutEnlargement := orDefault ov.withoutEnlargement defaultOptions.withoutEnlargement
  ignoreAspectRatio := orDefault ov.ignoreAspectRatio defaultOptions.ignoreAspectRatio
  extract := orDefault ov.extract defaultOptions.extract
  trim := orDefault ov.trim defaultOptions.trim
  flatten := orDefault ov.flatten defaultOptions.flatten
  extend := orDefault ov.extend defaultOptions.extend
  negate := orDefault ov.negate defaultOptions.negate
  rotate := orDefault ov.rotate defaultOptions.rotate
  flip := orDefault ov.flip defaultOptions.flip
  flop := orDefault ov.flop defaultOptions.flop
  blur := orDefault ov.blur defaultOptions.blur
  sharpen := orDefault ov.sharpen defaultOptions.sharpen
  gamma := orDefault ov.gamma defaultOptions.gamma
  grayscale := orDefault ov.grayscale defaultOptions.grayscale
  greyscale := orDefault ov.greyscale defaultOptions.greyscale
  normalize := orDefault ov.normalize defaultOptions.normalize
  normalise := orDefault ov.normalise defaultOptions.normalise
  progressive := orDefault ov.progressive defaultOptions.progressive
  quality := orDefault ov.quality defaultOptions.quality

/-- The custom error object of src/index.js lines 34-39: message with a
fallback text, plus optional code and field. -/
structure Serror where
  message : String
  code : Option String
  field : Option String
deriving DecidableEq

/-- The Serror constructor: message falls back to a default text, code and
field fall back to null. -/
def serror (message code field : Option String) : Serror where
  message := message.getD "error occurred."
  code := code
  field := field

/-- The gravity token table of the sharp interface (sharp.gravity): the
named anchor points recognized by the crop operation, with their numeric
codes.  Modelled at the interface boundary of the external image library. -/
def gravityKeys : List (String × Int) :=
  [("center", 0), ("centre", 0), ("north", 1), ("east", 2), ("south", 3),
   ("west", 4), ("northeast", 5), ("southeast", 6), ("southwest", 7),
   ("northwest", 8)]

/-- Conversion of a configuration value to a lodash property path key, as
the has check performs on a non-string argument (JavaScript String
conversion). -/
def JVal.toKey : JVal → String
  | .str s => s
  | .num n => toString n
  | .bool b => if b then "true" else "false"
  | .rgba _ _ _ _ => "[object Object]"
  | .rect _ _ _ _ => "[object Object]"
  | .undef => "undefined"

/-- Models the lodash toInteger conversion on the value shapes of this
embedding; numeric strings are outside the scope of the embedding and
convert to 0 like the other non-numeric shapes. -/
def JVal.toInteger : JVal → Int
  | .num n => n
  | .bool b => if b then 1 else 0
  | _ => 0

/-- Models the lodash toNumber conversion on the value shapes of this
embedding; numeric strings are outside the scope of the embedding and
convert to 0 like the other non-numeric shapes. -/
def JVal.toNumber : JVal → Int
  | .num n => n
  | .bool b => if b then 1 else 0
  | _ => 0

/-- The rotation angles accepted by the rotate check of processImages,
the list [0, 90, 180, 270] of src/index.js line 288. -/
def rotateAngles : List JVal :=
  [JVal.num 0, JVal.num 90, JVal.num 180, JVal.num 270]

/-- One sharp operation applied to the accumulating query object, at the
interface boundary of the external image library. -/
inductive Op where
  | background (color : JVal)
  | resize (width height : Int)
  | crop (gravity : Int)
  | embed
  | max
  | min
  | withoutEnlargement
  | ignoreAspectRatio
  | extract (region : JVal)
  | trim (threshold : Int)
  | flatten
  | extend (margins : JVal)
  | negate
  | rotate (angle : JVal)
  | flip
  | flop
  | blur (radius : Option Int)
  | sharpen
  | gamma (value : Option Int)
  | grayscale
  | normalize
  | quality (q : Int)
  | progressive
deriving DecidableEq

/-- Check resize, src/index.js lines 228-230. -/
def checkResize (o : Options) (s : Size) (q : List Op) : List Op :=
  if o.resize = JVal.bool true then q ++ [Op.resize s.width s.height] else q

/-- Check crop on a valid crop option, src/index.js lines 233-235: the
value must differ from false and be a key of the gravity table; the query
then crops to the gravity code of that key. -/
def checkCrop (o : Options) (q : List Op) : List Op :=
  if o.crop ≠ JVal.bool false then
    match gravityKeys.lookup (JVal.toKey o.crop) with
    | some g => q ++ [Op.crop g]
    | none => q
  else q

/-- Check embed, src/index.js lines 238-240. -/
def checkEmbed (o : Options) (q : List Op) : List Op :=
  if o.embed = JVal.bool true then q ++ [Op.embed] else q

/-- Check max, src/index.js lines 243-245. -/
def checkMax (o : Options) (q : List Op) : List Op :=
  if o.max = JVal.bool true then q ++ [Op.max] else q

/-- Check min, src/index.js lines 248-250. -/
def checkMin (o : Options) (q : List Op) : List Op :=
  if o.min = JVal.bool true then q ++ [Op.min] else q

/-- Check withoutEnlargement, src/index.js lines 253-255. -/
def checkWithoutEnlargement (o : Options) (q : List Op) : List Op :=
  if o.withoutEnlargement = JVal.bool true then q ++ [Op.withoutEnlargement] else q

/-- Check ignoreAspectRatio, src/index.js lines 258-260. -/
def checkIgnoreAspectRatio (o : Options) (q : List Op) : List Op :=
  if o.ignoreAspectRatio = JVal.bool true then q ++ [Op.ignoreAspectRatio] else q

/-- Check extract, src/index.js lines 263-265. -/
def checkExtract (o : Options) (q : List Op) : List Op :=
  if o.extract ≠ JVal.bool false then q ++ [Op.extract o.extract] else q

/-- Check trim, src/index.js lines 268-270. -/
def checkTrim (o : Options) (q : List Op) : List Op :=
  if o.trim ≠ JVal.bool false then q ++ [Op.trim (JVal.toInteger o.trim)] else q

/-- Check flatten, src/index.js lines 273-275. -/
def checkFlatten (o : Options) (q : List Op) : List Op :=
  if o.flatten = JVal.bool true then q ++ [Op.flatten] else q

/-- Check extend, src/index.js lines 278-280. -/
def checkExtend (o : Options) (q : List Op) : List Op :=
  if o.extend ≠ JVal.bool false then q ++ [Op.extend o.extend] else q

/-- Check negate, src/index.js lines 283-285. -/
def checkNegate (o : Options) (q : List Op) : List Op :=
  if o.negate = JVal.bool true then q ++ [Op.negate] else q

/-- Check rotate, src/index.js lines 288-290: only the listed angles. -/
def checkRotate (o : Options) (q : List Op) : List Op :=
  if o.rotate ∈ rotateAngles then q ++ [Op.rotate o.rotate] else q

/-- Check flip, src/index.js lines 293-295. -/
def checkFlip (o : Options) (q : List Op) : List Op :=
  if o.flip = JVal.bool true then q ++ [Op.flip] else q

/-- Check flop, src/index.js lines 298-300. -/
def checkFlop (o : Options) (q : List Op) : List Op :=
  if o.flop = JVal.bool true then q ++ [Op.flop] else q

/-- Check blur, src/index.js lines 303-309: default radius on true,
converted number otherwise. -/
def checkBlur (o : Options) (q : List Op) : List Op :=
  if o.blur ≠ JVal.bool false then
    (if o.blur = JVal.bool true then q ++ [Op.blur none]
     else q ++ [Op.blur (some (JVal.toNumber o.blur))])
  else q

/-- Check sharpen, src/index.js lines 312-314. -/
def checkSharpen (o : Options) (q : List Op) : List Op :=
  if o.sharpen = JVal.bool true then q ++ [Op.sharpen] else q

/-- Check gamma, src/index.js lines 317-323: default value on true,
converted number otherwise. -/
def checkGamma (o : Options) (q : List Op) : List Op :=
  if o.gamma ≠ JVal.bool false then
    (if o.gamma = JVal.bool true then q ++ [Op.gamma none]
     else q ++ [Op.gamma (some (JVal.toNumber o.gamma))])
  else q

/-- Check grayscale, src/index.js lines 326-328: either spelling. -/
def checkGrayscale (o : Options) (q : List Op) : List Op :=
  if o.grayscale = JVal.bool true ∨ o.greyscale = JVal.bool true then q ++ [Op.grayscale] else q

/-- Check normalize, src/index.js lines 331-333: either spelling. -/
def checkNormalize (o : Options) (q : List Op) : List Op :=
  if o.normalize = JVal.bool true ∨ o.normalise = JVal.bool true then q ++ [Op.normalize] else q

/-- Check quality, src/index.js lines 336-338. -/
def checkQuality (o : Options) (q : List Op) : List Op :=
  if o.quality ≠ JVal.bool false then q ++ [Op.quality (JVal.toInteger o.quality)] else q

/-- Check progressive, src/index.js lines 341-343. -/
def checkProgressive (o : Options) (q : List Op) : List Op :=
  if o.progressive = JVal.bool true then q ++ [Op.progressive] else q

/-- The per-size transform pipeline of processImages, src/index.js lines
223-343, translated check by check: the accumulating sharp query object
becomes an accumulating list of operations, seeded by the unconditional
background call on the master handle (line 225) and threaded through the
checks in source order. -/
def buildQuery (o : Options) (s : Size) : List Op :=
  let q := [Op.background o.background]
  let q := checkResize o s q
  let q := checkCrop o q
  let q := checkEmbed o q
  let q := checkMax o q
  let q := checkMin o q
  let q := checkWithoutEnlargement o q
  let q := checkIgnoreAspectRatio o q
  let q := checkExtract o q
  let q := checkTrim o q
  let q := checkFlatten o q
  let q := checkExtend o q
  let q := checkNegate o q
  let q := checkRotate o q
  let q := checkFlip o q
  let q := checkFlop o q
  let q := checkBlur o q
  let q := checkSharpen o q
  let q := checkGamma o q
  let q := checkGrayscale o q
  let q := checkNormalize o q
  let q := checkQuality o q
  let q := checkProgressive o q
  q

/-- Spec section 4.3, step 1: background-color, applied unconditionally. -/
def specBackground (o : Options) : List Op := [Op.background o.background]

/-- Spec section 4.3, step 2: resize to the size entry dimensions, if
resize is enabled. -/
def specResize (o : Options) (s : Size) : List Op :=
  if o.resize = JVal.bool true then [Op.resize s.width s.height] else []

/-- Spec section 4.3, step 3: crop to gravity, if the crop value is a
recognized gravity token. -/
def specCrop (o : Options) : List Op :=
  match gravityKeys.lookup (JVal.toKey o.crop) with
  | some g => [Op.crop g]
  | none => []

/-- Spec section 4.3, step 4: embed. -/
def specEmbed (o : Options) : List Op :=
  if o.embed = JVal.bool true then [Op.embed] else []

/-- Spec section 4.3, step 5: max constraint. -/
def specMax (o : Options) : List Op :=
  if o.max = JVal.bool true then [Op.max] else []

/-- Spec section 4.3, step 6: min constraint. -/
def specMin (o : Options) : List Op :=
  if o.min = JVal.bool true then [Op.min] else []

/-- Spec section 4.3, step 7: without enlargement. -/
def specWithoutEnlargement (o : Options) : List Op :=
  if o.withoutEnlargement = JVal.bool true then [Op.withoutEnlargement] else []

/-- Spec section 4.3, step 8: ignore aspect ratio. -/
def specIgnoreAspectRatio (o : Options) : List Op :=
  if o.ignoreAspectRatio = JVal.bool true then [Op.ignoreAspectRatio] else []

/-- Spec section 4.3, step 9: extract rectangle. -/
def specExtract (o : Options) : List Op :=
  if o.extract ≠ JVal.bool false then [Op.extract o.extract] else []

/-- Spec section 4.3, step 10: trim with threshold. -/
def specTrim (o : Options) : List Op :=
  if o.trim ≠ JVal.bool false then [Op.trim (JVal.toInteger o.trim)] else []

/-- Spec section 4.3, step 11: flatten. -/
def specFlatten (o : Options) : List Op :=
  if o.flatten = JVal.bool true then [Op.flatten] else []

/-- Spec section 4.3, step 12: extend margins. -/
def specExtend (o : Options) : List Op :=
  if o.extend ≠ JVal.bool false then [Op.extend o.extend] else []

/-- Spec section 4.3, step 13: negate. -/
def specNegate (o : Options) : List Op :=
  if o.negate = JVal.bool true then [Op.negate] else []

/-- Spec section 4.3, step 14: rotate, only if the angle is one of 0, 90,
180, 270. -/
def specRotate (o : Options) : List Op :=
  if o.rotate ∈ rotateAngles then [Op.rotate o.rotate] else []

/-- Spec section 4.3, step 15: flip. -/
def specFlip (o : Options) : List Op :=
  if o.flip = JVal.bool true then [Op.flip] else []

/-- Spec section 4.3, step 16: flop. -/
def specFlop (o : Options) : List Op :=
  if o.flop = JVal.bool true then [Op.flop] else []

/-- Spec section 4.3, step 17: blur with a radius or the default. -/
def specBlur (o : Options) : List Op :=
  if o.blur = JVal.bool true then [Op.blur none]
  else if o.blur ≠ JVal.bool false then [Op.blur (some (JVal.toNumber o.blur))]
  else []

/-- Spec section 4.3, step 18: sharpen. -/
def specSharpen (o : Options) : List Op :=
  if o.sharpen = JVal.bool true then [Op.sharpen] else []

/-- Spec section 4.3, step 19: gamma with a value or the default. -/
def specGamma (o : Options) : List Op :=
  if o.gamma = JVal.bool true then [Op.gamma none]
  else if o.gamma ≠ JVal.bool false then [Op.gamma (some (JVal.toNumber o.gamma))]
  else []

/-- Spec section 4.3, step 20: grayscale, accepting either spelling. -/
def specGrayscale (o : Options) : List Op :=
  if o.grayscale = JVal.bool true ∨ o.greyscale = JVal.bool true then [Op.grayscale] else []

/-- Spec section 4.3, step 21: normalize, accepting either spelling. -/
def specNormalize (o : Options) : List Op :=
  if o.normalize = JVal.bool true ∨ o.normalise = JVal.bool true then [Op.normalize] else []

/-- Spec section 4.3, step 22: quality as an integer. -/
def specQuality (o : Options) : List Op :=
  if o.quality ≠ JVal.bool false then [Op.quality (JVal.toInteger o.quality)] else []

/-- Spec section 4.3, step 23: progressive encoding. -/
def specProgressive (o : Options) : List Op :=
  if o.progressive = JVal.bool true then [Op.progressive] else []

/-- The fixed-order operation pipeline as the spec states it in section
4.3: the twenty-three steps concatenated in the given order. -/
def specPipeline (o : Options) (s : Size) : List Op :=
  specBackground o ++ specResize o s ++ specCrop o ++ specEmbed o ++
  specMax o ++ specMin o ++ specWithoutEnlargement o ++
  specIgnoreAspectRatio o ++ specExtract o ++ specTrim o ++ specFlatten o ++
  specExtend o ++ specNegate o ++ specRotate o ++ specFlip o ++ specFlop o ++
  specBlur o ++ specSharpen o ++ specGamma o ++ specGrayscale o ++
  specNormalize o ++ specQuality o ++ specProgressive o

/-- One observable external side effect of a pipeline invocation: the
master file write, one variant file write (with the operation list that
produced it), or the unlink call on the master file. -/
inductive Event where
  | masterWritten (path : String)
  | variantWritten (path : String) (query : List Op)
  | unlinkCalled (path : String)
deriving DecidableEq

/-- The external collaborators of one invocation, supplied as data:
dateformat applied to the current date, the random filename generator,
the canonical extension mime-types derives from the declared media type
(none when mime-types knows no extension for it), any non-filter multer
failure (size limit, attached file count, io), the toFile outcome per
output path, and the fs.unlink outcome.  Every external error value is
modelled as a Serror. -/
structure Env where
  formatNow : String → String
  randomString : Nat → String
  fileExt : Option String
  uploadErr : Option Serror
  writeErr : String → Option Serror
  unlinkErr : Option Serror

/-- The upload state object produced by masterUpload, src/index.js lines
201-205: formatted date directory, full destination directory, and the
generated file name. -/
structure UploadState where
  dir : String
  destination : String
  filename : String
deriving DecidableEq

/-- The config variables computed at the start of masterUpload,
src/index.js lines 166-170: dir from dateformat, destination as location
concatenated with dir, filename from randomstring. -/
def stateOf (o : Options) (e : Env) : UploadState where
  dir := e.formatNow o.dirFormat
  destination := o.location ++ e.formatNow o.dirFormat
  filename := e.randomString o.fileNameLen

/-- The path of the staged master file: destination slash filename. -/
def masterPath (st : UploadState) : String :=
  st.destination ++ "/" ++ st.filename

/-- The multer fileFilter of src/index.js lines 185-192: accept when the
canonical extension of the declared media type is in the accept list,
otherwise fail with the FILE_TYPE_UNSUPPORTED Serror carrying the
extension. -/
def fileFilter (o : Options) (e : Env) : Except Serror Unit :=
  match e.fileExt with
  | some ext =>
    if ext ∈ o.accept then Except.ok ()
    else Except.error (serror (some "file not acceptable")
      (some "FILE_TYPE_UNSUPPORTED") (some ext))
  | none => Except.error (serror (some "file not acceptable")
      (some "FILE_TYPE_UNSUPPORTED") none)

/-- The masterUpload waterfall task, src/index.js lines 164-207: compute
the destination and filename, run multer, and either fail with the multer
error or write the master file and hand the upload state on. -/
def masterUploadRun (o : Options) (e : Env) :
    List Event × Except Serror UploadState :=
  let st := stateOf o e
  match fileFilter o e with
  | Except.error err => ([], Except.error err)
  | Except.ok _ =>
    match e.uploadErr with
    | some err => ([], Except.error err)
    | none => ([Event.masterWritten (masterPath st)], Except.ok st)

/-- The output file path of one size, src/index.js lines 346-348:
destination slash filename dot suffix dot output. -/
def variantPath (st : UploadState) (o : Options) (s : Size) : String :=
  st.destination ++ "/" ++ st.filename ++ "." ++ s.suffix ++ "." ++ o.output

/-- The fan-out over the configured sizes inside processImages,
src/index.js lines 221-365: each size derives its own query over the
master image and writes its own output file; the first failing write
aborts the stage with that error, already-written variants stay. -/
def processSizes (o : Options) (e : Env) (st : UploadState) :
    List Size → List Event × Except Serror Unit
  | [] => ([], Except.ok ())
  | s :: rest =>
    match e.writeErr (variantPath st o s) with
    | some err => ([], Except.error err)
    | none =>
      let r := processSizes o e st rest
      (Event.variantWritten (variantPath st o s) (buildQuery o s) :: r.1, r.2)

/-- The deleteMaster waterfall task, src/index.js lines 375-386: unlink
the master file, fail with the unlink error or hand the state on. -/
def deleteMasterRun (e : Env) (st : UploadState) :
    List Event × Except Serror UploadState :=
  match e.unlinkErr with
  | some err => ([Event.unlinkCalled (masterPath st)], Except.error err)
  | none => ([Event.unlinkCalled (masterPath st)], Except.ok st)

/-- The middleware async.waterfall of src/index.js lines 157-408:
masterUpload, then processImages over all sizes, then deleteMaster; the
first error short-circuits to the final callback, a full success delivers
the upload state. -/
def runPipeline (o : Options) (e : Env) :
    List Event × Except Serror UploadState :=
  let u := masterUploadRun o e
  match u.2 with
  | Except.error err => (u.1, Except.error err)
  | Except.ok st =>
    let pr := processSizes o e st o.sizes
    match pr.2 with
    | Except.error err => (u.1 ++ pr.1, Except.error err)
    | Except.ok _ =>
      let d := deleteMasterRun e st
      (u.1 ++ pr.1 ++ d.1, d.2)

/-- The exported sharper function: resolve the caller options over the
defaults, then run the middleware. -/
def sharperRun (ov : Overrides) (e : Env) :
    List Event × Except Serror UploadState :=
  runPipeline (resolveOptions ov) e

/-- The first write error over the sizes list, in configured order: the
error the processImages stage surfaces when a size fails. -/
def firstWriteErr (o : Options) (e : Env) (st : UploadState) :
    List Size → Option Serror
  | [] => none
  | s :: rest =>
    match e.writeErr (variantPath st o s) with
    | some err => some err
    | none => firstWriteErr o e st rest

/-- A concrete fully-succeeding environment, used to exercise the proved
theorems on closed inputs. -/
def envOk : Env where
  formatNow := fun _ => "2016/jan/1"
  randomString := fun n => String.mk (List.replicate n 'x')
  fileExt := some "png"
  uploadErr := none
  writeErr := fun _ => none
  unlinkErr := none

/-- The succeeding environment with a declared media type whose canonical
extension is gif, which the default accept list rejects. -/
def envReject : Env := { envOk with fileExt := some "gif" }

/-- Two concrete size entries with distinct suffixes. -/
def sizeSm : Size := { suffix := "sm", width := 80, height := 60 }

/-- Second concrete size entry, distinct suffix from sizeSm. -/
def sizeLg : Size := { suffix := "lg", width := 500, height := 500 }

/-- The default configuration with a two-entry sizes list. -/
def optTwo : Options := { defaultOptions with sizes := [sizeSm, sizeLg] }

/-- An environment in which the write of the sm variant of optTwo under
envOk naming fails and every other write succeeds. -/
def envFailSm : Env :=
  { envOk with
    writeErr := fun p =>
      if p = "/var/www/uploads/2016/jan/1/" ++ String.mk (List.replicate 50 'x') ++ ".sm.jpg"
      then some (serror (some "write failed") none none) else none }

theorem checkResize_eq (o : Options) (s : Size) (q : List Op) :
    checkResize o s q = q ++ specResize o s := by
  unfold checkResize specResize; split <;> simp [*]

theorem checkCrop_eq (o : Options) (q : List Op) :
    checkCrop o q = q ++ specCrop o := by
  unfold checkCrop specCrop
  by_cases h : o.crop = JVal.bool false
  · rw [h]
    simp only [JVal.toKey, gravityKeys]
    norm_num
    rfl
  · simp only [h, ne_eq, not_false_iff, if_true]
    rcases hlk : gravityKeys.lookup (JVal.toKey o.crop) with _ | g <;> simp [hlk]

theorem checkEmbed_eq (o : Options) (q : List Op) :
    checkEmbed o q = q ++ specEmbed o := by
  unfold checkEmbed specEmbed; split <;> simp [*]

theorem checkMax_eq (o : Options) (q : List Op) :
    checkMax o q = q ++ specMax o := by
  unfold checkMax specMax; split <;> simp [*]

theorem checkMin_eq (o : Options) (q : List Op) :
    checkMin o q = q ++ specMin o := by
  unfold checkMin specMin; split <;> simp [*]

theorem checkWithoutEnlargement_eq (o : Options) (q : List Op) :
    checkWithoutEnlargement o q = q ++ specWithoutEnlargement o := by
  unfold checkWithoutEnlargement specWithoutEnlargement; split <;> simp [*]

theorem checkIgnoreAspectRatio_eq (o : Options) (q : List Op) :
    checkIgnoreAspectRatio o q = q ++ specIgnoreAspectRatio o := by
  unfold checkIgnoreAspectRatio specIgnoreAspectRatio; split <;> simp [*]

theorem checkExtract_eq (o : Options) (q : List Op) :
    checkExtract o q = q ++ specExtract o := by
  unfold checkExtract specExtract; split <;> simp [*]

theorem checkTrim_eq (o : Options) (q : List Op) :
    checkTrim o q = q ++ specTrim o := by
  unfold checkTrim specTrim; split <;> simp [*]

theorem checkFlatten_eq (o : Options) (q : List Op) :
    checkFlatten o q = q ++ specFlatten o := by
  unfold checkFlatten specFlatten; split <;> simp [*]

theorem checkExtend_eq (o : Options) (q : List Op) :
    checkExtend o q = q ++ specExtend o := by
  unfold checkExtend specExtend; split <;> simp [*]

theorem checkNegate_eq (o : Options) (q : List Op) :
    checkNegate o q = q ++ specNegate o := by
  unfold checkNegate specNegate; split <;> simp [*]

theorem checkRotate_eq (o : Options) (q : List Op) :
    checkRotate o q = q ++ specRotate o := by
  unfold checkRotate specRotate; split <;> simp [*]

theorem checkFlip_eq (o : Options) (q : List Op) :
    checkFlip o q = q ++ specFlip o := by
  unfold checkFlip specFlip; split <;> simp [*]

theorem checkFlop_eq (o : Options) (q : List Op) :
    checkFlop o q = q ++ specFlop o := by
  unfold checkFlop specFlop; split <;> simp [*]

theorem checkBlur_eq (o : Options) (q : List Op) :
    checkBlur o q = q ++ specBlur o := by
  unfold checkBlur specBlur
  by_cases h1 : o.blur = JVal.bool true
  · simp [h1]
  · by_cases h2 : o.blur = JVal.bool false
    · simp [h1, h2]
    · simp [h1, h2]

theorem checkSharpen_eq (o : Options) (q : List Op) :
    checkSharpen o q = q ++ specSharpen o := by
  unfold checkSharpen specSharpen; split <;> simp [*]

theorem checkGamma_eq (o : Options) (q : List Op) :
    checkGamma o q = q ++ specGamma o := by
  unfold checkGamma specGamma
  by_cases h1 : o.gamma = JVal.bool true
  · simp [h1]
  · by_cases h2 : o.gamma = JVal.bool false
    · simp [h1, h2]
    · simp [h1, h2]

theorem checkGrayscale_eq (o : Options) (q : List Op) :
    checkGrayscale o q = q ++ specGrayscale o := by
  unfold checkGrayscale specGrayscale; split <;> simp [*]

theorem checkNormalize_eq (o : Options) (q : List Op) :
    checkNormalize o q = q ++ specNormalize o := by
  unfold checkNormalize specNormalize; split <;> simp [*]

theorem checkQuality_eq (o : Options) (q : List Op) :
    checkQuality o q = q ++ specQuality o := by
  unfold checkQuality specQuality; split <;> simp [*]

theorem checkProgressive_eq (o : Options) (q : List Op) :
    checkProgressive o q = q ++ specProgressive o := by
  unfold checkProgressive specProgressive; split <;> simp [*]

theorem buildQuery_eq (o : Options) (s : Size) :
    buildQuery o s = specPipeline o s := by
  simp only [buildQuery, specPipeline, checkResize_eq, checkCrop_eq,
    checkEmbed_eq, checkMax_eq, checkMin_eq, checkWithoutEnlargement_eq,
    checkIgnoreAspectRatio_eq, checkExtract_eq, checkTrim_eq,
    checkFlatten_eq, checkExtend_eq, checkNegate_eq, checkRotate_eq,
    checkFlip_eq, checkFlop_eq, checkBlur_eq, checkSharpen_eq,
    checkGamma_eq, checkGrayscale_eq, checkNormalize_eq, checkQuality_eq,
    checkProgressive_eq, specBackground, List.append_assoc]

theorem string_append_mid_inj (a c : String) {b1 b2 : String}
    (h : a ++ b1 ++ c = a ++ b2 ++ c) : b1 = b2 := by
  have hd : a.data ++ b1.data ++ c.data = a.data ++ b2.data ++ c.data := by
    have h2 := congrArg String.data h
    simpa [String.data_append] using h2
  have h3 : b1.data = b2.data := by
    simpa [List.append_assoc] using hd
  cases b1; cases b2; exact congrArg String.mk h3

theorem variantPath_suffix_inj (st : UploadState) (o : Options)
    {s1 s2 : Size} (h : variantPath st o s1 = variantPath st o s2) :
    s1.suffix = s2.suffix := by
  have hd := congrArg String.data h
  simp only [variantPath, String.data_append, List.append_assoc] at hd
  have h3 : s1.suffix.data = s2.suffix.data := by
    simpa using hd
  cases hs1 : s1.suffix
  cases hs2 : s2.suffix
  rw [hs1, hs2] at h3
  exact congrArg String.mk (by simpa using h3)


theorem processSizes_all_ok (o : Options) (e : Env) (st : UploadState)
    (l : List Size) (h : ∀ s ∈ l, e.writeErr (variantPath st o s) = none) :
    processSizes o e st l =
      (l.map fun s => Event.variantWritten (variantPath st o s) (buildQuery o s),
       Except.ok ()) := by
  induction l with
  | nil => rfl
  | cons s rest ih =>
    have hs : e.writeErr (variantPath st o s) = none := h s (by simp)
    have hrest : ∀ x ∈ rest, e.writeErr (variantPath st o x) = none :=
      fun x hx => h x (by simp [hx])
    simp [processSizes, hs, ih hrest]

theorem processSizes_snd (o : Options) (e : Env) (st : UploadState)
    (l : List Size) :
    (processSizes o e st l).2 =
      match firstWriteErr o e st l with
      | some err => Except.error err
      | none => Except.ok () := by
  induction l with
  | nil => rfl
  | cons s rest ih =>
    unfold processSizes firstWriteErr
    rcases hw : e.writeErr (variantPath st o s) with _ | err
    · simpa [hw] using ih
    · simp [hw]

theorem firstWriteErr_none_iff (o : Options) (e : Env) (st : UploadState)
    (l : List Size) :
    firstWriteErr o e st l = none ↔
      ∀ s ∈ l, e.writeErr (variantPath st o s) = none := by
  induction l with
  | nil => simp [firstWriteErr]
  | cons s rest ih =>
    unfold firstWriteErr
    rcases hw : e.writeErr (variantPath st o s) with _ | err <;> simp [hw, ih]

theorem processSizes_events (o : Options) (e : Env) (st : UploadState)
    (l : List Size) :
    ∀ ev ∈ (processSizes o e st l).1,
      ∃ s, s ∈ l ∧ ev = Event.variantWritten (variantPath st o s) (buildQuery o s) := by
  induction l with
  | nil => simp [processSizes]
  | cons s rest ih =>
    unfold processSizes
    rcases hw : e.writeErr (variantPath st o s) with _ | err
    · intro ev hev
      simp only [hw] at hev
      rcases List.mem_cons.mp hev with h | h
      · exact ⟨s, by simp, h⟩
      · obtain ⟨x, hx, hx2⟩ := ih ev h
        exact ⟨x, by simp [hx], hx2⟩
    · simp [hw]

theorem masterUploadRun_char (o : Options) (e : Env) :
    masterUploadRun o e =
      match fileFilter o e with
      | Except.error err => ([], Except.error err)
      | Except.ok _ =>
        match e.uploadErr with
        | some err => ([], Except.error err)
        | none => ([Event.masterWritten (masterPath (stateOf o e))],
                   Except.ok (stateOf o e)) := by
  rfl

theorem runPipeline_char (o : Options) (e : Env) :
    runPipeline o e =
      match (masterUploadRun o e).2 with
      | Except.error err => ([], Except.error err)
      | Except.ok st =>
        match firstWriteErr o e st o.sizes with
        | some err =>
            (Event.masterWritten (masterPath st) :: (processSizes o e st o.sizes).1,
             Except.error err)
        | none =>
            (Event.masterWritten (masterPath st) ::
              (o.sizes.map fun s =>
                Event.variantWritten (variantPath st o s) (buildQuery o s)) ++
              [Event.unlinkCalled (masterPath st)],
             match e.unlinkErr with
             | some err => Except.error err
             | none => Except.ok st) := by
  unfold runPipeline masterUploadRun deleteMasterRun
  rcases hf : fileFilter o e with err | u
  · rfl
  · rcases hu : e.uploadErr with _ | err
    · rcases hw : firstWriteErr o e (stateOf o e) o.sizes with _ | err
      · have hall := (firstWriteErr_none_iff o e (stateOf o e) o.sizes).mp hw
        have hps := processSizes_all_ok o e (stateOf o e) o.sizes hall
        rcases hun : e.unlinkErr with _ | err <;> simp [hps, hw]
      · have hsnd := processSizes_snd o e (stateOf o e) o.sizes
        rw [hw] at hsnd
        simp [hsnd, hw]
    · rfl


/-- C2: for every configuration and every size entry, the operations
applied to the accumulating query object are exactly the toggles not in
their skip state, in the fixed order background, resize, crop, embed, max,
min, withoutEnlargement, ignoreAspectRatio, extract, trim, flatten,
extend, negate, rotate, flip, flop, blur, sharpen, gamma, grayscale,
normalize, quality, progressive: the source pipeline equals the ordered
step list of spec section 4.3. -/
theorem claim_C2_fixed_order (o : Options) (s : Size) :
    buildQuery o s = specPipeline o s :=
  buildQuery_eq o s

/-- C3: configuration resolution is a pure per-key overlay: every key
present in the caller options takes the caller value, every absent key
takes the documented default, and each resolved key is a function of that
key alone (the right-hand sides below mention no other key). -/
theorem claim_C3_config_overlay (ov : Overrides) :
    (resolveOptions ov).field = ov.field.getD "file" ∧
    (resolveOptions ov).location = ov.location.getD "/var/www/uploads/" ∧
    (resolveOptions ov).dirFormat = ov.dirFormat.getD "yyyy/mmm/d" ∧
    (resolveOptions ov).fileNameLen = ov.fileNameLen.getD 50 ∧
    (resolveOptions ov).maxFileSize = ov.maxFileSize.getD "10mb" ∧
    (resolveOptions ov).accept = ov.accept.getD ["png", "jpeg", "jpg"] ∧
    (resolveOptions ov).output = ov.output.getD "jpg" ∧
    (resolveOptions ov).sizes =
      ov.sizes.getD [{ suffix := "lg", width := 500, height := 500 }] ∧
    (resolveOptions ov).resize = ov.resize.getD (JVal.bool true) ∧
    (resolveOptions ov).crop = ov.crop.getD (JVal.bool false) ∧
    (resolveOptions ov).background =
      ov.background.getD (JVal.rgba 200 200 200 1) ∧
    (resolveOptions ov).embed = ov.embed.getD (JVal.bool false) ∧
    (resolveOptions ov).max = ov.max.getD (JVal.bool false) ∧
    (resolveOptions ov).min = ov.min.getD (JVal.bool false) ∧
    (resolveOptions ov).withoutEnlargement =
      ov.withoutEnlargement.getD (JVal.bool false) ∧
    (resolveOptions ov).ignoreAspectRatio =
      ov.ignoreAspectRatio.getD (JVal.bool false) ∧
    (resolveOptions ov).extract = ov.extract.getD (JVal.bool false) ∧
    (resolveOptions ov).trim = ov.trim.getD (JVal.bool false) ∧
    (resolveOptions ov).flatten = ov.flatten.getD (JVal.bool false) ∧
    (resolveOptions ov).extend = ov.extend.getD (JVal.bool false) ∧
    (resolveOptions ov).negate = ov.negate.getD (JVal.bool false) ∧
    (resolveOptions ov).rotate = ov.rotate.getD (JVal.bool false) ∧
    (resolveOptions ov).flip = ov.flip.getD (JVal.bool false) ∧
    (resolveOptions ov).flop = ov.flop.getD (JVal.bool false) ∧
    (resolveOptions ov).blur = ov.blur.getD (JVal.bool false) ∧
    (resolveOptions ov).sharpen = ov.sharpen.getD (JVal.bool false) ∧
    (resolveOptions ov).gamma = ov.gamma.getD (JVal.bool false) ∧
    (resolveOptions ov).grayscale = ov.grayscale.getD (JVal.bool false) ∧
    (resolveOptions ov).greyscale = ov.greyscale.getD (JVal.bool false) ∧
    (resolveOptions ov).normalize = ov.normalize.getD (JVal.bool false) ∧
    (resolveOptions ov).normalise = ov.normalise.getD (JVal.bool false) ∧
    (resolveOptions ov).progressive = ov.progressive.getD (JVal.bool false) ∧
    (resolveOptions ov).quality = ov.quality.getD (JVal.bool false) :=
  ⟨rfl, rfl, rfl, rfl, rfl, rfl, rfl, rfl, rfl, rfl, rfl, rfl, rfl, rfl,
   rfl, rfl, rfl, rfl, rfl, rfl, rfl, rfl, rfl, rfl, rfl, rfl, rfl, rfl,
   rfl, rfl, rfl, rfl, rfl⟩

/-- C9: the background operation is applied unconditionally as the first
operation of every derivation pipeline, for every configuration and every
size: the head of the query is always the background call with the
configured background value. -/
theorem claim_C9_background_first (o : Options) (s : Size) :
    (buildQuery o s).head? = some (Op.background o.background) := by
  rw [buildQuery_eq]
  simp [specPipeline, specBackground]


/-- C8: grayscale and greyscale are aliases, as are normalize and
normalise: swapping which spelling carries the true value leaves the
derivation pipeline identical, and either spelling contributes the same
single grayscale (respectively normalize) operation. -/
theorem claim_C8_spelling_alias (o : Options) (s : Size) :
    buildQuery { o with grayscale := JVal.bool true, greyscale := JVal.bool false } s =
      buildQuery { o with grayscale := JVal.bool false, greyscale := JVal.bool true } s ∧
    buildQuery { o with normalize := JVal.bool true, normalise := JVal.bool false } s =
      buildQuery { o with normalize := JVal.bool false, normalise := JVal.bool true } s ∧
    (buildQuery o s).count Op.grayscale =
      (if o.grayscale = JVal.bool true ∨ o.greyscale = JVal.bool true then 1 else 0) ∧
    (buildQuery o s).count Op.normalize =
      (if o.normalize = JVal.bool true ∨ o.normalise = JVal.bool true then 1 else 0) := by
  refine ⟨?_, ?_, ?_, ?_⟩
  · have h : specGrayscale
        { o with grayscale := JVal.bool true, greyscale := JVal.bool false } =
        specGrayscale
        { o with grayscale := JVal.bool false, greyscale := JVal.bool true } := by
      simp [specGrayscale]
    simp only [buildQuery_eq, specPipeline, h]
    rfl
  · have h : specNormalize
        { o with normalize := JVal.bool true, normalise := JVal.bool false } =
        specNormalize
        { o with normalize := JVal.bool false, normalise := JVal.bool true } := by
      simp [specNormalize]
    simp only [buildQuery_eq, specPipeline, h]
    rfl
  · rw [buildQuery_eq]
    rcases hlk : gravityKeys.lookup (JVal.toKey o.crop) with _ | g <;>
    simp [specPipeline, specBackground, specResize, specCrop, specEmbed,
      specMax, specMin, specWithoutEnlargement, specIgnoreAspectRatio,
      specExtract, specTrim, specFlatten, specExtend, specNegate, specRotate,
      specFlip, specFlop, specBlur, specSharpen, specGamma, specGrayscale,
      specNormalize, specQuality, specProgressive, hlk, List.count_append,
      List.count_singleton', apply_ite (List.count Op.grayscale)]
  · rw [buildQuery_eq]
    rcases hlk : gravityKeys.lookup (JVal.toKey o.crop) with _ | g <;>
    simp [specPipeline, specBackground, specResize, specCrop, specEmbed,
      specMax, specMin, specWithoutEnlargement, specIgnoreAspectRatio,
      specExtract, specTrim, specFlatten, specExtend, specNegate, specRotate,
      specFlip, specFlop, specBlur, specSharpen, specGamma, specGrayscale,
      specNormalize, specQuality, specProgressive, hlk, List.count_append,
      List.count_singleton', apply_ite (List.count Op.normalize)]

/-- C10: every boolean-gated toggle of the pipeline (resize, embed, max,
min, withoutEnlargement, ignoreAspectRatio, flatten, negate, flip, flop,
sharpen, progressive) is compared with strict equality to true: any value
other than true, including truthy values such as the number 1, behaves
exactly like false and leaves the query unchanged. -/
theorem claim_C10_strict_true (o : Options) (s : Size) (v : JVal)
    (hv : v ≠ JVal.bool true) :
    buildQuery { o with resize := v } s = buildQuery { o with resize := JVal.bool false } s ∧
    buildQuery { o with embed := v } s = buildQuery { o with embed := JVal.bool false } s ∧
    buildQuery { o with max := v } s = buildQuery { o with max := JVal.bool false } s ∧
    buildQuery { o with min := v } s = buildQuery { o with min := JVal.bool false } s ∧
    buildQuery { o with withoutEnlargement := v } s =
      buildQuery { o with withoutEnlargement := JVal.bool false } s ∧
    buildQuery { o with ignoreAspectRatio := v } s =
      buildQuery { o with ignoreAspectRatio := JVal.bool false } s ∧
    buildQuery { o with flatten := v } s = buildQuery { o with flatten := JVal.bool false } s ∧
    buildQuery { o with negate := v } s = buildQuery { o with negate := JVal.bool false } s ∧
    buildQuery { o with flip := v } s = buildQuery { o with flip := JVal.bool false } s ∧
    buildQuery { o with flop := v } s = buildQuery { o with flop := JVal.bool false } s ∧
    buildQuery { o with sharpen := v } s = buildQuery { o with sharpen := JVal.bool false } s ∧
    buildQuery { o with progressive := v } s =
      buildQuery { o with progressive := JVal.bool false } s := by
  refine ⟨?_, ?_, ?_, ?_, ?_, ?_, ?_, ?_, ?_, ?_, ?_, ?_⟩
  · have h : specResize { o with resize := v } s =
        specResize { o with resize := JVal.bool false } s := by
      simp [specResize, hv]
    simp only [buildQuery_eq, specPipeline, h]
    rfl
  · have h : specEmbed { o with embed := v } =
        specEmbed { o with embed := JVal.bool false } := by
      simp [specEmbed, hv]
    simp only [buildQuery_eq, specPipeline, h]
    rfl
  · have h : specMax { o with max := v } =
        specMax { o with max := JVal.bool false } := by
      simp [specMax, hv]
    simp only [buildQuery_eq, specPipeline, h]
    rfl
  · have h : specMin { o with min := v } =
        specMin { o with min := JVal.bool false } := by
      simp [specMin, hv]
    simp only [buildQuery_eq, specPipeline, h]
    rfl
  · have h : specWithoutEnlargement { o with withoutEnlargement := v } =
        specWithoutEnlargement { o with withoutEnlargement := JVal.bool false } := by
      simp [specWithoutEnlargement, hv]
    simp only [buildQuery_eq, specPipeline, h]
    rfl
  · have h : specIgnoreAspectRatio { o with ignoreAspectRatio := v } =
        specIgnoreAspectRatio { o with ignoreAspectRatio := JVal.bool false } := by
      simp [specIgnoreAspectRatio, hv]
    simp only [buildQuery_eq, specPipeline, h]
    rfl
  · have h : specFlatten { o with flatten := v } =
        specFlatten { o with flatten := JVal.bool false } := by
      simp [specFlatten, hv]
    simp only [buildQuery_eq, specPipeline, h]
    rfl
  · have h : specNegate { o with negate := v } =
        specNegate { o with negate := JVal.bool false } := by
      simp [specNegate, hv]
    simp only [buildQuery_eq, specPipeline, h]
    rfl
  · have h : specFlip { o with flip := v } =
        specFlip { o with flip := JVal.bool false } := by
      simp [specFlip, hv]
    simp only [buildQuery_eq, specPipeline, h]
    rfl
  · have h : specFlop { o with flop := v } =
        specFlop { o with flop := JVal.bool false } := by
      simp [specFlop, hv]
    simp only [buildQuery_eq, specPipeline, h]
    rfl
  · have h : specSharpen { o with sharpen := v } =
        specSharpen { o with sharpen := JVal.bool false } := by
      simp [specSharpen, hv]
    simp only [buildQuery_eq, specPipeline, h]
    rfl
  · have h : specProgressive { o with progressive := v } =
        specProgressive { o with progressive := JVal.bool false } := by
      simp [specProgressive, hv]
    simp only [buildQuery_eq, specPipeline, h]
    rfl

/-- C10 witness: the truthy number 1 on the resize toggle behaves exactly
like false at a concrete configuration. -/
theorem claim_C10_witness :
    buildQuery { defaultOptions with resize := JVal.num 1 } sizeLg =
      buildQuery { defaultOptions with resize := JVal.bool false } sizeLg :=
  (claim_C10_strict_true defaultOptions sizeLg (JVal.num 1) (by decide)).1


theorem mem_ite_list (p : Prop) [Decidable p] (a : Op) (l1 l2 : List Op) :
    a ∈ (if p then l1 else l2) ↔ (p ∧ a ∈ l1) ∨ (¬p ∧ a ∈ l2) := by
  split <;> simp [*]

theorem rotate_mem_iff (o : Options) (s : Size) :
    (∃ a, Op.rotate a ∈ buildQuery o s) ↔ o.rotate ∈ rotateAngles := by
  rw [buildQuery_eq]
  rcases hlk : gravityKeys.lookup (JVal.toKey o.crop) with _ | g <;>
  simp [specPipeline, specBackground, specResize, specCrop, specEmbed,
    specMax, specMin, specWithoutEnlargement, specIgnoreAspectRatio,
    specExtract, specTrim, specFlatten, specExtend, specNegate, specRotate,
    specFlip, specFlop, specBlur, specSharpen, specGamma, specGrayscale,
    specNormalize, specQuality, specProgressive, hlk, mem_ite_list]

theorem crop_mem_iff (o : Options) (s : Size) :
    (∃ g, Op.crop g ∈ buildQuery o s) ↔
      o.crop ≠ JVal.bool false ∧
        (gravityKeys.lookup (JVal.toKey o.crop)).isSome := by
  rw [buildQuery_eq]
  rcases hlk : gravityKeys.lookup (JVal.toKey o.crop) with _ | g
  · simp [specPipeline, specBackground, specResize, specCrop, specEmbed,
      specMax, specMin, specWithoutEnlargement, specIgnoreAspectRatio,
      specExtract, specTrim, specFlatten, specExtend, specNegate, specRotate,
      specFlip, specFlop, specBlur, specSharpen, specGamma, specGrayscale,
      specNormalize, specQuality, specProgressive, hlk, mem_ite_list]
  · have hc : o.crop ≠ JVal.bool false := by
      intro hc
      rw [hc] at hlk
      have h0 : gravityKeys.lookup (JVal.toKey (JVal.bool false)) = none := by decide
      rw [h0] at hlk
      exact Option.noConfusion hlk
    simp [specPipeline, specBackground, specResize, specCrop, specEmbed,
      specMax, specMin, specWithoutEnlargement, specIgnoreAspectRatio,
      specExtract, specTrim, specFlatten, specExtend, specNegate, specRotate,
      specFlip, specFlop, specBlur, specSharpen, specGamma, specGrayscale,
      specNormalize, specQuality, specProgressive, hlk, hc, mem_ite_list]


/-- A configuration with an unrecognized rotation angle and an
unrecognized crop gravity token, for exercising the silent-skip theorem. -/
def optWeird : Options :=
  { defaultOptions with rotate := JVal.num 45, crop := JVal.str "middle" }

/-- C7: an unrecognized value of a validated toggle is silently treated as
skip: rotate applies exactly for the angles 0, 90, 180, 270; crop applies
exactly for a non-false value that is a recognized gravity token; any
other value yields the same query as the false (skip) setting, and no
error is raised (the pipeline is total by construction). -/
theorem claim_C7_silent_skip (o : Options) (s : Size) :
    ((∃ a, Op.rotate a ∈ buildQuery o s) ↔ o.rotate ∈ rotateAngles) ∧
    ((∃ g, Op.crop g ∈ buildQuery o s) ↔
      o.crop ≠ JVal.bool false ∧
        (gravityKeys.lookup (JVal.toKey o.crop)).isSome) ∧
    (o.rotate ∉ rotateAngles →
      buildQuery o s = buildQuery { o with rotate := JVal.bool false } s) ∧
    (¬(o.crop ≠ JVal.bool false ∧
        (gravityKeys.lookup (JVal.toKey o.crop)).isSome) →
      buildQuery o s = buildQuery { o with crop := JVal.bool false } s) := by
  refine ⟨rotate_mem_iff o s, crop_mem_iff o s, ?_, ?_⟩
  · intro h
    have hr : specRotate o = specRotate { o with rotate := JVal.bool false } := by
      unfold specRotate
      rw [if_neg h]
      rfl
    simp only [buildQuery_eq, specPipeline, hr]
    rfl
  · intro h
    have hn : gravityKeys.lookup (JVal.toKey o.crop) = none := by
      by_cases hc : o.crop = JVal.bool false
      · rw [hc]; decide
      · have hb := (not_and.mp h) hc
        exact Option.not_isSome_iff_eq_none.mp hb
    have hcrop : specCrop o = specCrop { o with crop := JVal.bool false } := by
      unfold specCrop
      rw [hn]
      rfl
    simp only [buildQuery_eq, specPipeline, hcrop]
    rfl

/-- C7 witness: the angle 45 and the token middle are silently skipped at
a concrete configuration. -/
theorem claim_C7_witness :
    buildQuery optWeird sizeLg =
      buildQuery { optWeird with rotate := JVal.bool false } sizeLg ∧
    buildQuery optWeird sizeLg =
      buildQuery { optWeird with crop := JVal.bool false } sizeLg :=
  ⟨(claim_C7_silent_skip optWeird sizeLg).2.2.1 (by decide),
   (claim_C7_silent_skip optWeird sizeLg).2.2.2 (by decide)⟩


theorem masterUploadRun_ok_state (o : Options) (e : Env) (st : UploadState)
    (h : (masterUploadRun o e).2 = Except.ok st) :
    st = stateOf o e ∧ fileFilter o e = Except.ok () ∧ e.uploadErr = none := by
  rw [masterUploadRun_char] at h
  rcases hf : fileFilter o e with err | u
  · rw [hf] at h; simp at h
  · rcases hu : e.uploadErr with _ | err
    · rw [hf, hu] at h
      dsimp only at h
      simp only [Except.ok.injEq] at h
      cases u
      exact ⟨h.symm, rfl, rfl⟩
    · rw [hf, hu] at h; simp at h

theorem runPipeline_success_events (o : Options) (e : Env) (st : UploadState)
    (h : (runPipeline o e).2 = Except.ok st) :
    st = stateOf o e ∧
    (runPipeline o e).1 =
      Event.masterWritten (masterPath st) ::
        (o.sizes.map fun s =>
          Event.variantWritten (variantPath st o s) (buildQuery o s)) ++
        [Event.unlinkCalled (masterPath st)] := by
  have hchar := runPipeline_char o e
  rcases hm : (masterUploadRun o e).2 with err | st2
  · rw [hm] at hchar
    dsimp only at hchar
    rw [hchar] at h
    simp at h
  · obtain ⟨hst2, -, -⟩ := masterUploadRun_ok_state o e st2 hm
    rw [hm] at hchar
    dsimp only at hchar
    rcases hw : firstWriteErr o e st2 o.sizes with _ | err
    · rw [hw] at hchar
      dsimp only at hchar
      rcases hu : e.unlinkErr with _ | err
      · rw [hu] at hchar
        dsimp only at hchar
        rw [hchar] at h
        simp only [Except.ok.injEq] at h
        rw [hchar]
        subst h
        exact ⟨hst2, rfl⟩
      · rw [hu] at hchar
        dsimp only at hchar
        rw [hchar] at h
        simp at h
    · rw [hw] at hchar
      dsimp only at hchar
      rw [hchar] at h
      simp at h


/-- C1: with two configured sizes of distinct suffixes, a successful run
writes both output files at distinct paths, each carrying the query built
from its own entry alone; the shared master handle is modelled as a pure
value, so one size never mutates the query another size observes, and a
query of one entry is unchanged by replacing the other entry. -/
theorem claim_C1_per_size_independence (o : Options) (e : Env)
    (s1 s2 : Size) (hsz : o.sizes = [s1, s2]) (hsuf : s1.suffix ≠ s2.suffix)
    (st : UploadState) (hok : (runPipeline o e).2 = Except.ok st) :
    variantPath st o s1 ≠ variantPath st o s2 ∧
    Event.variantWritten (variantPath st o s1) (buildQuery o s1) ∈
      (runPipeline o e).1 ∧
    Event.variantWritten (variantPath st o s2) (buildQuery o s2) ∈
      (runPipeline o e).1 ∧
    (∀ t : Size, buildQuery { o with sizes := [s1, t] } s1 = buildQuery o s1) ∧
    (∀ t : Size, buildQuery { o with sizes := [t, s2] } s2 = buildQuery o s2) := by
  obtain ⟨hst, hevs⟩ := runPipeline_success_events o e st hok
  refine ⟨fun hp => hsuf (variantPath_suffix_inj st o hp), ?_, ?_,
    fun t => rfl, fun t => rfl⟩
  · rw [hevs, hsz]; simp
  · rw [hevs, hsz]; simp

/-- C1 witness: a concrete two-size configuration under a succeeding
environment. -/
theorem claim_C1_witness :
    variantPath (stateOf optTwo envOk) optTwo sizeSm ≠
      variantPath (stateOf optTwo envOk) optTwo sizeLg ∧
    Event.variantWritten (variantPath (stateOf optTwo envOk) optTwo sizeSm)
      (buildQuery optTwo sizeSm) ∈ (runPipeline optTwo envOk).1 ∧
    Event.variantWritten (variantPath (stateOf optTwo envOk) optTwo sizeLg)
      (buildQuery optTwo sizeLg) ∈ (runPipeline optTwo envOk).1 ∧
    (∀ t : Size, buildQuery { optTwo with sizes := [sizeSm, t] } sizeSm =
      buildQuery optTwo sizeSm) ∧
    (∀ t : Size, buildQuery { optTwo with sizes := [t, sizeLg] } sizeLg =
      buildQuery optTwo sizeLg) :=
  claim_C1_per_size_independence optTwo envOk sizeSm sizeLg rfl (by decide)
    (stateOf optTwo envOk) rfl

/-- C4: an upload whose declared media type has a canonical extension
outside the accept list makes the upload stage fail, and the pipeline
delivers exactly that one error, carrying the message, the
FILE_TYPE_UNSUPPORTED code, and the rejected extension in the field slot;
no side effect is performed. -/
theorem claim_C4_unsupported_type (o : Options) (e : Env) (ext : String)
    (hext : e.fileExt = some ext) (hacc : ext ∉ o.accept) :
    (masterUploadRun o e).2 = Except.error
      { message := "file not acceptable", code := some "FILE_TYPE_UNSUPPORTED",
        field := some ext } ∧
    runPipeline o e = ([], Except.error
      { message := "file not acceptable", code := some "FILE_TYPE_UNSUPPORTED",
        field := some ext }) := by
  have hf : fileFilter o e = Except.error
      { message := "file not acceptable", code := some "FILE_TYPE_UNSUPPORTED",
        field := some ext } := by
    unfold fileFilter
    rw [hext]
    dsimp only
    rw [if_neg hacc]
    rfl
  have hm : (masterUploadRun o e).2 = Except.error
      { message := "file not acceptable", code := some "FILE_TYPE_UNSUPPORTED",
        field := some ext } := by
    rw [masterUploadRun_char, hf]
  refine ⟨hm, ?_⟩
  have hchar := runPipeline_char o e
  rw [hm] at hchar
  dsimp only at hchar
  exact hchar

/-- C4 witness: the gif extension is rejected against the default accept
list and the pipeline delivers the tagged error. -/
theorem claim_C4_witness :
    runPipeline defaultOptions envReject = ([], Except.error
      { message := "file not acceptable", code := some "FILE_TYPE_UNSUPPORTED",
        field := some "gif" }) :=
  (claim_C4_unsupported_type defaultOptions envReject "gif" rfl (by decide)).2

/-- C5: the stages run in the strict order upload, variant derivation,
master cleanup: the unlink call happens exactly when the upload succeeded
and every configured size wrote successfully; an upload failure ends the
run with that error and no side effect; a variant failure surfaces the
first failing write and never reaches the unlink; and a fully successful
derivation runs the cleanup last and delivers exactly one outcome, the
upload state on success or the unlink error on cleanup failure. -/
theorem claim_C5_stage_order (o : Options) (e : Env) :
    ((∃ p, Event.unlinkCalled p ∈ (runPipeline o e).1) ↔
      ((masterUploadRun o e).2 = Except.ok (stateOf o e) ∧
        ∀ s ∈ o.sizes, e.writeErr (variantPath (stateOf o e) o s) = none)) ∧
    (∀ err, (masterUploadRun o e).2 = Except.error err →
      runPipeline o e = ([], Except.error err)) ∧
    (∀ st err, (masterUploadRun o e).2 = Except.ok st →
      firstWriteErr o e st o.sizes = some err →
      (runPipeline o e).2 = Except.error err ∧
        ∀ p, Event.unlinkCalled p ∉ (runPipeline o e).1) ∧
    (∀ st, (masterUploadRun o e).2 = Except.ok st →
      firstWriteErr o e st o.sizes = none →
      runPipeline o e =
        (Event.masterWritten (masterPath st) ::
          (o.sizes.map fun s =>
            Event.variantWritten (variantPath st o s) (buildQuery o s)) ++
          [Event.unlinkCalled (masterPath st)],
         match e.unlinkErr with
         | some err => Except.error err
         | none => Except.ok st)) := by
  have hchar := runPipeline_char o e
  rcases hm : (masterUploadRun o e).2 with err2 | st2
  · rw [hm] at hchar
    dsimp only at hchar
    refine ⟨?_, ?_, ?_, ?_⟩
    · rw [hchar]; simp
    · intro err h
      simp only [Except.error.injEq] at h
      subst h
      exact hchar
    · intro st err h; simp at h
    · intro st h; simp at h
  · obtain ⟨hst2, -, -⟩ := masterUploadRun_ok_state o e st2 hm
    subst hst2
    rw [hm] at hchar
    dsimp only at hchar
    rcases hw : firstWriteErr o e (stateOf o e) o.sizes with _ | err2
    · rw [hw] at hchar
      dsimp only at hchar
      refine ⟨?_, ?_, ?_, ?_⟩
      · constructor
        · intro _
          exact ⟨rfl, (firstWriteErr_none_iff o e (stateOf o e) o.sizes).mp hw⟩
        · intro _
          refine ⟨masterPath (stateOf o e), ?_⟩
          rw [hchar]
          simp
      · intro err h; simp at h
      · intro st err h hw2
        simp only [Except.ok.injEq] at h
        subst h
        rw [hw] at hw2
        cases hw2
      · intro st h hw2
        simp only [Except.ok.injEq] at h
        subst h
        exact hchar
    · rw [hw] at hchar
      dsimp only at hchar
      refine ⟨?_, ?_, ?_, ?_⟩
      · constructor
        · rintro ⟨p, hp⟩
          exfalso
          rw [hchar] at hp
          rcases List.mem_cons.mp hp with h1 | h1
          · simp at h1
          · obtain ⟨s, hs, hev⟩ :=
              processSizes_events o e (stateOf o e) o.sizes _ h1
            simp at hev
        · rintro ⟨-, hall⟩
          have hn := (firstWriteErr_none_iff o e (stateOf o e) o.sizes).mpr hall
          rw [hw] at hn
          cases hn
      · intro err h; simp at h
      · intro st err h hw2
        simp only [Except.ok.injEq] at h
        subst h
        rw [hw] at hw2
        simp only [Option.some.injEq] at hw2
        subst hw2
        constructor
        · rw [hchar]
        · intro p hp
          rw [hchar] at hp
          rcases List.mem_cons.mp hp with h1 | h1
          · simp at h1
          · obtain ⟨s, hs, hev⟩ :=
              processSizes_events o e (stateOf o e) o.sizes _ h1
            simp at hev
      · intro st h hw2
        simp only [Except.ok.injEq] at h
        subst h
        rw [hw] at hw2
        cases hw2

/-- C5 witness: the full success trace at a concrete configuration, and a
concrete variant-write failure that surfaces the write error and never
reaches the unlink. -/
theorem claim_C5_witness :
    runPipeline optTwo envOk =
      (Event.masterWritten (masterPath (stateOf optTwo envOk)) ::
        (optTwo.sizes.map fun s =>
          Event.variantWritten (variantPath (stateOf optTwo envOk) optTwo s)
            (buildQuery optTwo s)) ++
        [Event.unlinkCalled (masterPath (stateOf optTwo envOk))],
       Except.ok (stateOf optTwo envOk)) ∧
    ((runPipeline optTwo envFailSm).2 =
        Except.error (serror (some "write failed") none none) ∧
      ∀ p, Event.unlinkCalled p ∉ (runPipeline optTwo envFailSm).1) :=
  ⟨(claim_C5_stage_order optTwo envOk).2.2.2 (stateOf optTwo envOk) rfl rfl,
   (claim_C5_stage_order optTwo envFailSm).2.2.1 (stateOf optTwo envFailSm)
     (serror (some "write failed") none none) rfl rfl⟩

/-- C6: every variant output path produced by a run equals directory slash
filename dot suffix dot output, with the directory equal to the configured
location concatenated with the formatted date, the filename equal to the
generated random string of fileNameLen characters, and the single global
output identifier shared by all sizes. -/
theorem claim_C6_output_path (o : Options) (e : Env)
    (hlen : (e.randomString o.fileNameLen).length = o.fileNameLen) :
    (∀ p q, Event.variantWritten p q ∈ (runPipeline o e).1 →
      ∃ s, s ∈ o.sizes ∧
        p = o.location ++ e.formatNow o.dirFormat ++ "/" ++
            e.randomString o.fileNameLen ++ "." ++ s.suffix ++ "." ++ o.output) ∧
    (stateOf o e).destination = o.location ++ e.formatNow o.dirFormat ∧
    (stateOf o e).filename = e.randomString o.fileNameLen ∧
    (stateOf o e).filename.length = o.fileNameLen := by
  refine ⟨?_, rfl, rfl, hlen⟩
  intro p q hpq
  have hchar := runPipeline_char o e
  rcases hm : (masterUploadRun o e).2 with err | st2
  · rw [hm] at hchar
    dsimp only at hchar
    rw [hchar] at hpq
    simp at hpq
  · obtain ⟨hst2, -, -⟩ := masterUploadRun_ok_state o e st2 hm
    subst hst2
    rw [hm] at hchar
    dsimp only at hchar
    rcases hw : firstWriteErr o e (stateOf o e) o.sizes with _ | err
    · rw [hw] at hchar
      dsimp only at hchar
      rw [hchar] at hpq
      rcases List.mem_cons.mp hpq with h1 | h1
      · simp at h1
      · rcases List.mem_append.mp h1 with h2 | h2
        · obtain ⟨s, hs, hev⟩ := List.mem_map.mp h2
          simp only [Event.variantWritten.injEq] at hev
          exact ⟨s, hs, hev.1.symm.trans rfl⟩
        · simp at h2
    · rw [hw] at hchar
      dsimp only at hchar
      rw [hchar] at hpq
      rcases List.mem_cons.mp hpq with h1 | h1
      · simp at h1
      · obtain ⟨s, hs, hev⟩ :=
          processSizes_events o e (stateOf o e) o.sizes _ h1
        simp only [Event.variantWritten.injEq] at hev
        exact ⟨s, hs, hev.1.trans rfl⟩

/-- C6 witness: the path law at the default configuration under a
concrete environment whose random generator honours the length contract. -/
theorem claim_C6_witness :
    (∀ p q, Event.variantWritten p q ∈ (runPipeline defaultOptions envOk).1 →
      ∃ s, s ∈ defaultOptions.sizes ∧
        p = defaultOptions.location ++
            envOk.formatNow defaultOptions.dirFormat ++ "/" ++
            envOk.randomString defaultOptions.fileNameLen ++ "." ++ s.suffix ++
            "." ++ defaultOptions.output) ∧
    (stateOf defaultOptions envOk).destination =
      defaultOptions.location ++ envOk.formatNow defaultOptions.dirFormat ∧
    (stateOf defaultOptions envOk).filename =
      envOk.randomString defaultOptions.fileNameLen ∧
    (stateOf defaultOptions envOk).filename.length =
      defaultOptions.fileNameLen :=
  claim_C6_output_path defaultOptions envOk (by decide)

end Sharper
